import Mathlib

/-!
Verification of the SOM-monitor measurement pipeline.

Shallow embedding of the core measurement and analysis code:
`analyzer.py` (brand-mention extraction), `monitor.py` (SOM aggregation),
`confidence_intervals.py` (Wilson intervals, data-quality grades, trend
velocity), `theme_analyzer.py` (theme extraction and strategic insights)
and `storage.py` / `models.py` (the serialization round-trip).

Python strings are modelled as `String` / `List Char`; Python's `str.lower`
is modelled character-wise by `Char.toLower`.  Python dicts are modelled as
association lists in insertion order, read through `List.lookup` (Python
keys are unique, so the first hit is the only hit).  Python floats are
modelled as rationals, except for the Wilson interval where square roots
force real numbers.  `numpy.mean` of an empty array is NaN; NaN is modelled
as `none`, and every IEEE comparison with NaN is false.
-/

/-! ## Python string primitives used by `analyzer.py` -/

/-- Character-wise model of Python's `str.lower`. -/
def lowerStr (s : List Char) : List Char := s.map Char.toLower

/-- Model of Python's `str.find(sub)`: the least index at which `sub`
occurs as a substring, `none` when it does not occur (`-1` in Python).
`find("")` is `0`, as in Python. -/
def charFind (sub : List Char) : List Char → Option Nat
  | [] => if sub.isPrefixOf ([] : List Char) then some 0 else none
  | c :: t =>
    if sub.isPrefixOf (c :: t) then some 0
    else (charFind sub t).map (· + 1)

/-- Non-overlapping occurrence scan behind `charCount`: after a match the
scan resumes one character past the end of the match, as Python's
`str.count` does.  Only meaningful for a non-empty `sub` (the wrapper
special-cases the empty string). -/
def charCountAux (sub : List Char) : List Char → Nat
  | [] => 0
  | c :: t =>
    if sub.isPrefixOf (c :: t) then 1 + charCountAux sub (t.drop (sub.length - 1))
    else charCountAux sub t
  termination_by l => l.length
  decreasing_by
  · simp only [List.length_drop, List.length_cons]; omega
  · simp only [List.length_cons]; omega

/-- Model of Python's `str.count(sub)`: the number of non-overlapping
occurrences; `s.count("") == len(s) + 1` in Python. -/
def charCount (sub s : List Char) : Nat :=
  if sub = [] then s.length + 1 else charCountAux sub s

/-- Model of Python's substring test `sub in s` (equivalent to
`s.find(sub) != -1`). -/
def charIn (sub s : List Char) : Bool := (charFind sub s).isSome

/-- Specification-side predicate: `sub` occurs in `s` at index `i`. -/
def occursAt (sub s : List Char) (i : Nat) : Prop :=
  sub.isPrefixOf (s.drop i) = true

instance (sub s : List Char) (i : Nat) : Decidable (occursAt sub s i) := by
  unfold occursAt; infer_instance

/-! ## `models.py`: BrandMention -/

/-- `models.BrandMention`: one brand's mention facts for one response. -/
structure BrandMention where
  mentioned : Bool
  first_position : Option Nat
  count : Nat
  deriving DecidableEq, Repr

/-! ## `analyzer.py`: ResponseAnalyzer.extract_mentions -/

/-- Body of the per-brand loop of `ResponseAnalyzer.extract_mentions`:
`text_lower` is the already-lowercased response text. -/
def extractMention (brand : String) (text_lower : List Char) : BrandMention :=
  let brand_lower := lowerStr brand.data
  if charIn brand_lower text_lower then
    { mentioned := true
      first_position := charFind brand_lower text_lower
      count := charCount brand_lower text_lower }
  else
    { mentioned := false, first_position := none, count := 0 }

/-- `ResponseAnalyzer.extract_mentions`: lowercases the text once and scans
it for every tracked brand; the returned association list models the
Python dict keyed by brand. -/
def extract_mentions (brands : List String) (text : String) :
    List (String × BrandMention) :=
  let text_lower := lowerStr text.data
  brands.map fun brand => (brand, extractMention brand text_lower)

/-! ## Lemmas about the string primitives -/

theorem charFind_isSome_iff (sub s : List Char) :
    (charFind sub s).isSome = true ↔ ∃ i, occursAt sub s i := by
  induction s with
  | nil =>
    by_cases h : sub.isPrefixOf ([] : List Char)
    · rw [charFind, if_pos h]
      exact ⟨fun _ => ⟨0, h⟩, fun _ => rfl⟩
    · rw [charFind, if_neg h]
      constructor
      · intro hc; exact absurd hc (by simp)
      · rintro ⟨i, hi⟩
        have : sub.isPrefixOf ([] : List Char) = true := by
          simpa [occursAt] using hi
        exact absurd this h
  | cons c t ih =>
    by_cases h : sub.isPrefixOf (c :: t)
    · rw [charFind, if_pos h]
      exact ⟨fun _ => ⟨0, h⟩, fun _ => rfl⟩
    · rw [charFind, if_neg h]
      cases hf : charFind sub t with
      | none =>
        simp only [Option.map_none', Option.isSome_none]
        constructor
        · intro hc; exact absurd hc (by simp)
        rintro ⟨i, hi⟩
        cases i with
        | zero => exact absurd (by simpa [occursAt] using hi) h
        | succ j =>
          have hex : ∃ k, occursAt sub t k := ⟨j, by simpa [occursAt] using hi⟩
          have := ih.mpr hex
          rw [hf] at this
          exact absurd this (by simp)
      | some j =>
        simp only [Option.map_some', Option.isSome_some, true_iff]
        rcases ih.mp (by rw [hf]; rfl) with ⟨k, hk⟩
        exact ⟨k + 1, by simpa [occursAt] using hk⟩

theorem charFind_eq_some (sub s : List Char) (i : Nat)
    (h : charFind sub s = some i) :
    occursAt sub s i ∧ ∀ j < i, ¬ occursAt sub s j := by
  induction s generalizing i with
  | nil =>
    by_cases hp : sub.isPrefixOf ([] : List Char)
    · simp [charFind, hp] at h
      subst h
      exact ⟨by simpa [occursAt] using hp, by omega⟩
    · simp [charFind, hp] at h
  | cons c t ih =>
    by_cases hp : sub.isPrefixOf (c :: t)
    · simp [charFind, hp] at h
      subst h
      exact ⟨by simpa [occursAt] using hp, by omega⟩
    · rw [charFind, if_neg hp] at h
      cases hf : charFind sub t with
      | none => rw [hf] at h; simp at h
      | some j =>
        rw [hf] at h
        simp only [Option.map_some', Option.some.injEq] at h
        rcases ih j hf with ⟨hocc, hmin⟩
        subst h
        refine ⟨by simpa [occursAt] using hocc, ?_⟩
        intro k hk
        cases k with
        | zero => simpa [occursAt] using hp
        | succ k' =>
          have := hmin k' (by omega)
          simpa [occursAt] using this

theorem charCountAux_pos_iff (sub s : List Char) (hs : sub ≠ []) :
    0 < charCountAux sub s ↔ ∃ i, occursAt sub s i := by
  induction s using charCountAux.induct sub with
  | case1 =>
    constructor
    · intro h; simp [charCountAux] at h
    · rintro ⟨i, hi⟩
      have : sub = [] := by simpa [occursAt] using hi
      exact absurd this hs
  | case2 c t hp _ =>
    rw [show charCountAux sub (c :: t)
          = 1 + charCountAux sub (t.drop (sub.length - 1)) by
      simp [charCountAux, hp]]
    constructor
    · intro _
      exact ⟨0, by simpa [occursAt] using hp⟩
    · intro _
      omega
  | case3 c t hp ih =>
    rw [show charCountAux sub (c :: t) = charCountAux sub t by
      simp [charCountAux, hp]]
    rw [ih]
    constructor
    · rintro ⟨i, hi⟩
      exact ⟨i + 1, by simpa [occursAt] using hi⟩
    · rintro ⟨i, hi⟩
      cases i with
      | zero => exact absurd (by simpa [occursAt] using hi) (by simpa using hp)
      | succ j => exact ⟨j, by simpa [occursAt] using hi⟩

theorem charCount_pos_iff (sub s : List Char) :
    0 < charCount sub s ↔ ∃ i, occursAt sub s i := by
  by_cases hs : sub = []
  · subst hs
    rw [charCount, if_pos rfl]
    exact ⟨fun _ => ⟨0, by simp [occursAt]⟩, fun _ => by omega⟩
  · rw [charCount, if_neg hs]
    exact charCountAux_pos_iff sub s hs

theorem charIn_iff_exists (sub s : List Char) :
    charIn sub s = true ↔ ∃ i, occursAt sub s i := by
  rw [charIn]; exact charFind_isSome_iff sub s

theorem charIn_iff_count_pos (sub s : List Char) :
    charIn sub s = true ↔ 0 < charCount sub s := by
  rw [charIn_iff_exists, charCount_pos_iff]

/-- `List.lookup` on an association list built by pairing every element of
a list with a function of itself finds exactly that function value. -/
theorem lookup_map_pair {α β : Type} [BEq α] [LawfulBEq α]
    (f : α → β) (l : List α) (b : α) (h : b ∈ l) :
    (l.map fun x => (x, f x)).lookup b = some (f b) := by
  induction l with
  | nil => cases h
  | cons a t ih =>
    by_cases hba : b = a
    · subst hba
      simp [List.lookup]
    · have hbeq : (b == a) = false := by simpa using hba
      have hmem : b ∈ t := by
        cases h with
        | head => exact absurd rfl hba
        | tail _ h' => exact h'
      simp [List.lookup, hbeq, ih hmem]

theorem charFind_empty (s : List Char) : charFind [] s = some 0 := by
  cases s <;> simp [charFind]

/-! ## Claim C1 -/

/-- Claim C1: for every tracked brand `b` and text `t`, the `BrandMention`
produced by `ResponseAnalyzer.extract_mentions` has `mentioned` true iff the
case-insensitive occurrence count of `b` in `t` is positive; when mentioned,
`first_position` is the least case-insensitive occurrence index of `b` in `t`
and `count` the case-insensitive occurrence count; when not mentioned,
`first_position` is `none` and `count` is `0`.  In particular the invariant
`mentioned == (count > 0) == (first_position is not None)` holds. -/
theorem extract_mentions_spec_C1 (brands : List String) (text : String)
    (b : String) (hb : b ∈ brands) :
    ∃ m, (extract_mentions brands text).lookup b = some m ∧
      (m.mentioned = true ↔ 0 < m.count) ∧
      (m.mentioned = true ↔ m.first_position ≠ none) ∧
      m.count = charCount (lowerStr b.data) (lowerStr text.data) ∧
      (m.mentioned = true ↔ 0 < charCount (lowerStr b.data) (lowerStr text.data)) ∧
      (∀ i, m.first_position = some i →
        occursAt (lowerStr b.data) (lowerStr text.data) i ∧
        ∀ j < i, ¬ occursAt (lowerStr b.data) (lowerStr text.data) j) ∧
      (m.mentioned = false → m.first_position = none ∧ m.count = 0) := by
  refine ⟨extractMention b (lowerStr text.data), ?_, ?_⟩
  · rw [extract_mentions]
    exact lookup_map_pair (fun x => extractMention x (lowerStr text.data)) brands b hb
  · rw [extractMention]
    by_cases hin : charIn (lowerStr b.data) (lowerStr text.data) = true
    · rw [if_pos hin]
      have hcount := (charIn_iff_count_pos _ _).mp hin
      have hfind : (charFind (lowerStr b.data) (lowerStr text.data)).isSome = true := hin
      refine ⟨by simpa using hcount, ?_, rfl, by simpa using hcount, ?_, by simp⟩
      · simp only [true_iff]
        exact Option.isSome_iff_ne_none.mp hfind
      · intro i hi
        exact charFind_eq_some _ _ i hi
    · rw [if_neg hin]
      have hcount : charCount (lowerStr b.data) (lowerStr text.data) = 0 := by
        by_contra hc
        exact hin ((charIn_iff_count_pos _ _).mpr (by omega))
      refine ⟨by simp, by simp, by simp [hcount], by simp [hcount], ?_, by simp⟩
      intro i hi
      simp at hi

/-- Witness for C1 at a concrete input: one tracked brand, a text
containing it twice in different cases. -/
theorem extract_mentions_spec_C1_witness :
    ∃ m, (extract_mentions ["OpenAI"] "openai and OpenAI").lookup "OpenAI" = some m ∧
      (m.mentioned = true ↔ 0 < m.count) ∧
      (m.mentioned = true ↔ m.first_position ≠ none) ∧
      m.count = charCount (lowerStr "OpenAI".data) (lowerStr "openai and OpenAI".data) ∧
      (m.mentioned = true ↔
        0 < charCount (lowerStr "OpenAI".data) (lowerStr "openai and OpenAI".data)) ∧
      (∀ i, m.first_position = some i →
        occursAt (lowerStr "OpenAI".data) (lowerStr "openai and OpenAI".data) i ∧
        ∀ j < i, ¬ occursAt (lowerStr "OpenAI".data) (lowerStr "openai and OpenAI".data) j) ∧
      (m.mentioned = false → m.first_position = none ∧ m.count = 0) :=
  extract_mentions_spec_C1 ["OpenAI"] "openai and OpenAI" "OpenAI" (by simp)

/-! ## Claim C4 -/

/-- Claim C4 counterexample: the claim says an empty tracked brand name is
always reported unmentioned, but Python's `"" in text` is `True` for every
text, so the code reports the empty brand as mentioned at position `0` with
count `len(text) + 1`.  Concretely for text `"ab"`. -/
theorem empty_brand_counterexample_C4 :
    (extract_mentions [""] "ab").lookup "" =
      some { mentioned := true, first_position := some 0, count := 3 } := by
  decide

/-- Claim C4 amended: if the tracked brand list contains the empty brand
name, `extract_mentions` reports it as MENTIONED with `first_position = 0`
and `count = len(text) + 1` for every text (the empty string is a substring
of every string in Python). -/
theorem empty_brand_amended_C4 (brands : List String) (text : String)
    (hb : "" ∈ brands) :
    (extract_mentions brands text).lookup "" =
      some { mentioned := true, first_position := some 0,
             count := text.data.length + 1 } := by
  rw [extract_mentions]
  rw [lookup_map_pair (fun x => extractMention x (lowerStr text.data)) brands "" hb]
  have hdata : ("" : String).data = [] := rfl
  have hfind : charFind (lowerStr ("" : String).data) (lowerStr text.data) = some 0 := by
    rw [hdata]; exact charFind_empty _
  have hin : charIn (lowerStr ("" : String).data) (lowerStr text.data) = true := by
    rw [charIn, hfind]; rfl
  rw [extractMention, if_pos hin, hfind]
  have hcount : charCount (lowerStr ("" : String).data) (lowerStr text.data)
      = text.data.length + 1 := by
    rw [hdata]
    simp [charCount, lowerStr]
  rw [hcount]

/-- Witness for the amended C4 at text `"x"`. -/
theorem empty_brand_amended_C4_witness :
    (extract_mentions [""] "x").lookup "" =
      some { mentioned := true, first_position := some 0, count := 2 } :=
  empty_brand_amended_C4 [""] "x" (by simp)

/-! ## `models.py`: QueryResult and SOMMetrics

Python `int` fields are modelled by `Nat`: every integer this pipeline
produces (run index, counts, character positions) is nonnegative. -/

/-- `models.QueryResult`: one response to one prompt/model/run. -/
structure QueryResult where
  timestamp : String
  category : String
  query : String
  run : Nat
  model : String
  provider : String
  response : String
  mentions : List (String × BrandMention)
  mention_order : List String
  total_mentioned : Nat
  deriving DecidableEq, Repr

/-- `models.SOMMetrics`: per-brand aggregate over a result collection. -/
structure SOMMetrics where
  brand : String
  mention_rate : ℚ
  first_mention_rate : ℚ
  avg_position : Option ℚ
  total_mentions : Nat
  total_queries : Nat
  deriving DecidableEq, Repr

/-! ## `monitor.py`: SOMMonitor.calculate_som -/

/-- The mention test of `calculate_som`:
`brand in r.mentions and r.mentions[brand].mentioned` — a record lacking
the brand key counts as not mentioning it. -/
def brandMentioned (brand : String) (r : QueryResult) : Bool :=
  match r.mentions.lookup brand with
  | some m => m.mentioned
  | none => false

/-- The first-mention test of `calculate_som`:
`r.mention_order and r.mention_order[0] == brand`. -/
def isFirstMention (brand : String) (r : QueryResult) : Bool :=
  match r.mention_order with
  | [] => false
  | h :: _ => h == brand

/-- Python `list.index`, called by `calculate_som` only after a membership
test guarantees the element is present. -/
def listIndex (a : String) : List String → Nat
  | [] => 0
  | b :: t => if b == a then 0 else listIndex a t + 1

/-- Body of the per-brand loop of `SOMMonitor.calculate_som`. -/
def somForBrand (results : List QueryResult) (brand : String) : SOMMetrics :=
  let total_queries := results.length
  let mentions := (results.filter (fun r => brandMentioned brand r)).length
  let mention_rate : ℚ := (mentions : ℚ) / (total_queries : ℚ)
  let positions :=
    (results.filter (fun r => brand ∈ r.mention_order)).map
      (fun r => listIndex brand r.mention_order + 1)
  let avg_position : Option ℚ :=
    if positions.length = 0 then none
    else some ((positions.sum : ℚ) / (positions.length : ℚ))
  let first_mentions := (results.filter (fun r => isFirstMention brand r)).length
  let first_mention_rate : ℚ := (first_mentions : ℚ) / (total_queries : ℚ)
  { brand := brand
    mention_rate := mention_rate
    first_mention_rate := first_mention_rate
    avg_position := avg_position
    total_mentions := mentions
    total_queries := total_queries }

/-- `SOMMonitor.calculate_som`: empty input yields the empty mapping,
otherwise one `SOMMetrics` per tracked brand. -/
def calculate_som (brands : List String) (results : List QueryResult) :
    List (String × SOMMetrics) :=
  if results = [] then []
  else brands.map fun brand => (brand, somForBrand results brand)

/-- Filtering with a pointwise-weaker predicate keeps no more elements. -/
theorem length_filter_mono {α : Type} (p q : α → Bool) (l : List α)
    (h : ∀ a ∈ l, p a = true → q a = true) :
    (l.filter p).length ≤ (l.filter q).length := by
  induction l with
  | nil => simp
  | cons a t ih =>
    have iht := ih fun x hx hp => h x (List.mem_cons_of_mem a hx) hp
    by_cases hp : p a = true
    · rw [List.filter_cons_of_pos hp,
        List.filter_cons_of_pos (h a (List.mem_cons_self a t) hp)]
      simpa using iht
    · rw [List.filter_cons_of_neg (by simpa using hp)]
      by_cases hq : q a = true
      · rw [List.filter_cons_of_pos hq]
        simp only [List.length_cons]
        omega
      · rw [List.filter_cons_of_neg (by simpa using hq)]
        exact iht

/-! ## Claim C3 -/

/-- Claim C3: over any non-empty result collection of `n` records, a
tracked brand `A` mentioned in exactly `m` records gets
`mention_rate = m / n`; if `A` is never the first element of a record's
`mention_order`, its `first_mention_rate` is `0`; and a record whose
`mentions` mapping lacks `A` counts as not mentioning `A` instead of
failing. -/
theorem calculate_som_spec_C3 (brands : List String)
    (results : List QueryResult) (A : String) (m : Nat)
    (hne : results ≠ []) (hA : A ∈ brands)
    (hm : (results.filter (fun r => brandMentioned A r)).length = m) :
    ∃ met, (calculate_som brands results).lookup A = some met ∧
      met.mention_rate = (m : ℚ) / (results.length : ℚ) ∧
      ((∀ r ∈ results, isFirstMention A r = false) →
        met.first_mention_rate = 0) ∧
      (∀ r ∈ results, r.mentions.lookup A = none →
        brandMentioned A r = false) := by
  refine ⟨somForBrand results A, ?_, ?_, ?_, ?_⟩
  · rw [calculate_som, if_neg hne]
    exact lookup_map_pair (somForBrand results) brands A hA
  · simp only [somForBrand]
    rw [hm]
  · intro hnf
    have hfil : results.filter (fun r => isFirstMention A r) = [] := by
      rw [List.filter_eq_nil_iff]
      intro r hr
      simp [hnf r hr]
    simp only [somForBrand, hfil]
    simp
  · intro r _ hr
    rw [brandMentioned, hr]

/-- Witness for C3: one record mentioning `"A"` at second place. -/
theorem calculate_som_spec_C3_witness :
    ∃ met, (calculate_som ["A"]
        [{ timestamp := "", category := "", query := "", run := 0,
           model := "", provider := "", response := "",
           mentions := [("A", { mentioned := true, first_position := some 5,
                                count := 1 })],
           mention_order := ["B", "A"], total_mentioned := 2 }]).lookup "A"
        = some met ∧
      met.mention_rate = ((1 : Nat) : ℚ) /
        (([{ timestamp := "", category := "", query := "", run := 0,
             model := "", provider := "", response := "",
             mentions := [("A", { mentioned := true, first_position := some 5,
                                  count := 1 })],
             mention_order := ["B", "A"], total_mentioned := 2 }] :
           List QueryResult).length : ℚ) ∧
      ((∀ r ∈ ([{ timestamp := "", category := "", query := "", run := 0,
                  model := "", provider := "", response := "",
                  mentions := [("A", { mentioned := true,
                                       first_position := some 5,
                                       count := 1 })],
                  mention_order := ["B", "A"], total_mentioned := 2 }] :
                 List QueryResult), isFirstMention "A" r = false) →
        met.first_mention_rate = 0) ∧
      (∀ r ∈ ([{ timestamp := "", category := "", query := "", run := 0,
                 model := "", provider := "", response := "",
                 mentions := [("A", { mentioned := true,
                                      first_position := some 5,
                                      count := 1 })],
                 mention_order := ["B", "A"], total_mentioned := 2 }] :
                List QueryResult), r.mentions.lookup "A" = none →
        brandMentioned "A" r = false) :=
  calculate_som_spec_C3 ["A"] _ "A" 1 (by simp) (by simp) (by decide)

/-! ## Claim C9 -/

/-- Claim C9 (implicit invariant): over any non-empty result collection
whose records satisfy the `QueryResult` invariant — `mention_order` holds
exactly the brands marked mentioned — every tracked brand's
`first_mention_rate` is at most its `mention_rate`, and both rates lie in
`[0, 1]`. -/
theorem calculate_som_rates_C9 (brands : List String)
    (results : List QueryResult) (A : String)
    (hne : results ≠ []) (hA : A ∈ brands)
    (hinv : ∀ r ∈ results,
      (∀ b ∈ r.mention_order, brandMentioned b r = true) ∧
      (∀ b ∈ brands, brandMentioned b r = true → b ∈ r.mention_order)) :
    ∃ met, (calculate_som brands results).lookup A = some met ∧
      0 ≤ met.mention_rate ∧ met.mention_rate ≤ 1 ∧
      0 ≤ met.first_mention_rate ∧ met.first_mention_rate ≤ 1 ∧
      met.first_mention_rate ≤ met.mention_rate := by
  refine ⟨somForBrand results A, ?_, ?_⟩
  · rw [calculate_som, if_neg hne]
    exact lookup_map_pair (somForBrand results) brands A hA
  · have hn : 0 < results.length := List.length_pos.mpr hne
    have hnq : (0 : ℚ) < (results.length : ℚ) := by exact_mod_cast hn
    have hcm : (results.filter (fun r => brandMentioned A r)).length
        ≤ results.length := List.length_filter_le _ _
    have hcf : (results.filter (fun r => isFirstMention A r)).length
        ≤ (results.filter (fun r => brandMentioned A r)).length := by
      apply length_filter_mono
      intro r hr hfirst
      cases horder : r.mention_order with
      | nil => rw [isFirstMention, horder] at hfirst; exact absurd hfirst (by simp)
      | cons h t =>
        rw [isFirstMention, horder] at hfirst
        have hEq : h = A := by simpa using hfirst
        subst hEq
        have hmem : h ∈ r.mention_order := by
          rw [horder]; exact List.mem_cons_self h t
        exact (hinv r hr).1 h hmem
    have hcfn : (results.filter (fun r => isFirstMention A r)).length
        ≤ results.length := le_trans hcf hcm
    refine ⟨?_, ?_, ?_, ?_, ?_⟩
    · show (0 : ℚ) ≤ ((results.filter (fun r => brandMentioned A r)).length : ℚ)
        / (results.length : ℚ)
      positivity
    · show ((results.filter (fun r => brandMentioned A r)).length : ℚ)
        / (results.length : ℚ) ≤ 1
      rw [div_le_one hnq]; exact_mod_cast hcm
    · show (0 : ℚ) ≤ ((results.filter (fun r => isFirstMention A r)).length : ℚ)
        / (results.length : ℚ)
      positivity
    · show ((results.filter (fun r => isFirstMention A r)).length : ℚ)
        / (results.length : ℚ) ≤ 1
      rw [div_le_one hnq]; exact_mod_cast hcfn
    · show ((results.filter (fun r => isFirstMention A r)).length : ℚ)
        / (results.length : ℚ)
        ≤ ((results.filter (fun r => brandMentioned A r)).length : ℚ)
        / (results.length : ℚ)
      gcongr

/-- Witness for C9: a single record mentioning `"A"` first. -/
theorem calculate_som_rates_C9_witness :
    ∃ met, (calculate_som ["A"]
        [{ timestamp := "", category := "", query := "", run := 0,
           model := "", provider := "", response := "",
           mentions := [("A", { mentioned := true, first_position := some 0,
                                count := 1 })],
           mention_order := ["A"], total_mentioned := 1 }]).lookup "A"
        = some met ∧
      0 ≤ met.mention_rate ∧ met.mention_rate ≤ 1 ∧
      0 ≤ met.first_mention_rate ∧ met.first_mention_rate ≤ 1 ∧
      met.first_mention_rate ≤ met.mention_rate :=
  calculate_som_rates_C9 ["A"] _ "A" (by simp) (by simp) (by decide)

/-! ## `confidence_intervals.py`: ConfidenceCalculator.evaluate_data_quality -/

/-- The quality-assessment dict returned by `evaluate_data_quality`. -/
structure DataQuality where
  quality : String
  color : String
  recommendation : String
  icon : String
  sample_size : Int
  deriving DecidableEq, Repr

/-- `ConfidenceCalculator.evaluate_data_quality`: four-tier grade from the
sample size, with the canonical recommendation strings. -/
def evaluate_data_quality (sample_size : Int) : DataQuality :=
  if sample_size < 30 then
    { quality := "LOW", color := "#f44336",
      recommendation := "Collect " ++ toString (30 - sample_size)
        ++ " more samples for statistical significance",
      icon := "⚠️", sample_size := sample_size }
  else if sample_size < 100 then
    { quality := "MODERATE", color := "#ff9800",
      recommendation := "Consider " ++ toString (100 - sample_size)
        ++ " more samples for higher confidence",
      icon := "⚡", sample_size := sample_size }
  else if sample_size < 300 then
    { quality := "GOOD", color := "#4caf50",
      recommendation := "Sample size adequate for reliable insights",
      icon := "✓", sample_size := sample_size }
  else
    { quality := "EXCELLENT", color := "#2196f3",
      recommendation := "Sample size excellent for high-confidence analysis",
      icon := "⭐", sample_size := sample_size }

/-! ## Claim C6 -/

/-- Claim C6: `evaluate_data_quality` classifies every integer sample size
into exactly one of the four grades by the thresholds
`<30 LOW, <100 MODERATE, <300 GOOD, else EXCELLENT`, with the canonical
recommendation strings, and is boundary-exact at 29/30/100/300. -/
theorem evaluate_data_quality_spec_C6 :
    (∀ n : Int,
      ((evaluate_data_quality n).quality = "LOW" ↔ n < 30) ∧
      ((evaluate_data_quality n).quality = "MODERATE" ↔ 30 ≤ n ∧ n < 100) ∧
      ((evaluate_data_quality n).quality = "GOOD" ↔ 100 ≤ n ∧ n < 300) ∧
      ((evaluate_data_quality n).quality = "EXCELLENT" ↔ 300 ≤ n) ∧
      (evaluate_data_quality n).recommendation =
        (if n < 30 then
          "Collect " ++ toString (30 - n) ++ " more samples for statistical significance"
         else if n < 100 then
          "Consider " ++ toString (100 - n) ++ " more samples for higher confidence"
         else if n < 300 then "Sample size adequate for reliable insights"
         else "Sample size excellent for high-confidence analysis")) ∧
    (evaluate_data_quality 29).quality = "LOW" ∧
    (evaluate_data_quality 29).recommendation =
      "Collect 1 more samples for statistical significance" ∧
    (evaluate_data_quality 30).quality = "MODERATE" ∧
    (evaluate_data_quality 30).recommendation =
      "Consider 70 more samples for higher confidence" ∧
    (evaluate_data_quality 100).quality = "GOOD" ∧
    (evaluate_data_quality 100).recommendation =
      "Sample size adequate for reliable insights" ∧
    (evaluate_data_quality 300).quality = "EXCELLENT" ∧
    (evaluate_data_quality 300).recommendation =
      "Sample size excellent for high-confidence analysis" := by
  have hLM : ("LOW" : String) ≠ "MODERATE" := by decide
  have hLG : ("LOW" : String) ≠ "GOOD" := by decide
  have hLE : ("LOW" : String) ≠ "EXCELLENT" := by decide
  have hML : ("MODERATE" : String) ≠ "LOW" := by decide
  have hMG : ("MODERATE" : String) ≠ "GOOD" := by decide
  have hME : ("MODERATE" : String) ≠ "EXCELLENT" := by decide
  have hGL : ("GOOD" : String) ≠ "LOW" := by decide
  have hGM : ("GOOD" : String) ≠ "MODERATE" := by decide
  have hGE : ("GOOD" : String) ≠ "EXCELLENT" := by decide
  have hEL : ("EXCELLENT" : String) ≠ "LOW" := by decide
  have hEM : ("EXCELLENT" : String) ≠ "MODERATE" := by decide
  have hEG : ("EXCELLENT" : String) ≠ "GOOD" := by decide
  constructor
  · intro n
    rw [evaluate_data_quality]
    split_ifs with h1 h2 h3
    · exact ⟨iff_of_true rfl h1, iff_of_false hLM (by omega),
        iff_of_false hLG (by omega), iff_of_false hLE (by omega), rfl⟩
    · exact ⟨iff_of_false hML (by omega), iff_of_true rfl ⟨by omega, h2⟩,
        iff_of_false hMG (by omega), iff_of_false hME (by omega), rfl⟩
    · exact ⟨iff_of_false hGL (by omega), iff_of_false hGM (by omega),
        iff_of_true rfl ⟨by omega, h3⟩, iff_of_false hGE (by omega), rfl⟩
    · exact ⟨iff_of_false hEL (by omega), iff_of_false hEM (by omega),
        iff_of_false hEG (by omega), iff_of_true rfl (by omega), rfl⟩
  · refine ⟨?_, ?_, ?_, ?_, ?_, ?_, ?_, ?_⟩ <;> decide

/-! ## `confidence_intervals.py`: TrendAnalyzer.calculate_velocity -/

/-- The month-over-month changes
`[time_series[i] - time_series[i-1] for i in range(1, len(time_series))]`. -/
def pyChanges (time_series : List ℚ) : List ℚ :=
  List.zipWith (fun a b => a - b) time_series.tail time_series

/-- `numpy.mean`: the arithmetic mean, NaN (modelled `none`) on an empty
array. -/
def npMean (l : List ℚ) : Option ℚ :=
  if l.length = 0 then none else some (l.sum / (l.length : ℚ))

/-- Float subtraction where either side may be NaN; NaN propagates. -/
def nanSub (a b : Option ℚ) : Option ℚ :=
  match a, b with
  | some x, some y => some (x - y)
  | _, _ => none

/-- `abs(x) > c` on a float that may be NaN: every comparison with NaN is
false. -/
def nanAbsGt (a : Option ℚ) (c : ℚ) : Bool :=
  match a with
  | some x => decide (c < |x|)
  | none => false

/-- The acceleration computation of `calculate_velocity`:
`np.mean(changes[-2:]) - np.mean(changes[:-2])` when there are at least two
changes, else `0.0`.  With exactly two changes, `changes[:-2]` is empty and
`np.mean` of it is NaN. -/
def accelCode (changes : List ℚ) : Option ℚ :=
  if 2 ≤ changes.length then
    nanSub (npMean (changes.drop (changes.length - 2)))
           (npMean (changes.take (changes.length - 2)))
  else some 0

/-- The dict returned by `TrendAnalyzer.calculate_velocity`.  Keys that are
present only in one branch are `Option`s (`trend` exists only in the
insufficient-data branch, `is_accelerating` only in the main branch).  The
display fields `velocity_pct` and `icon`, and the Mann-Kendall fields
`is_trending` / `trend_strength` (computed by `scipy.stats.kendalltau`),
are not modelled; no claim concerns them. -/
structure VelocityResult where
  velocity : ℚ
  direction : String
  acceleration : Option ℚ
  is_accelerating : Option Bool
  trend : Option String
  deriving DecidableEq, Repr

/-- `TrendAnalyzer.calculate_velocity` (the modelled fields). -/
def calculate_velocity (time_series : List ℚ) : VelocityResult :=
  if time_series.length < 2 then
    { velocity := 0, direction := "stable", acceleration := some 0,
      is_accelerating := none, trend := some "insufficient_data" }
  else
    let changes := pyChanges time_series
    let avg_change := changes.sum / (changes.length : ℚ)
    let direction :=
      if 1/100 < avg_change then "increasing"
      else if avg_change < -(1/100) then "decreasing"
      else "stable"
    let acceleration := accelCode changes
    { velocity := avg_change, direction := direction,
      acceleration := acceleration,
      is_accelerating := some (nanAbsGt acceleration (5/1000)),
      trend := none }

/-- Specification-side arithmetic mean (total: `0` on the empty list, where
the true mean is undefined). -/
def specMean (l : List ℚ) : ℚ := l.sum / (l.length : ℚ)

theorem npMean_eq_none (l : List ℚ) (h : l.length = 0) : npMean l = none := by
  rw [npMean, if_pos h]

theorem npMean_eq_some (l : List ℚ) (h : l.length ≠ 0) :
    npMean l = some (specMean l) := by
  rw [npMean, if_neg h, specMean]

/-- The amended claim's acceleration value: for at least 4 points, mean of
the last two differences minus mean of the remaining differences; for
exactly 3 points NaN (`none`), because the remaining-differences slice is
empty; otherwise the explicit `0`. -/
def accelerationClaimed (s : List ℚ) : Option ℚ :=
  if 4 ≤ s.length then
    some (specMean ((pyChanges s).drop ((pyChanges s).length - 2))
          - specMean ((pyChanges s).take ((pyChanges s).length - 2)))
  else if s.length = 3 then none
  else some 0

/-- The amended claim's `is_accelerating` value: present for at least 2
points and true iff the acceleration is a number of absolute value greater
than `0.005` (false when the acceleration is NaN); absent for shorter
series. -/
def isAcceleratingClaimed (s : List ℚ) : Option Bool :=
  if 2 ≤ s.length then
    some (match accelerationClaimed s with
          | some a => decide (5/1000 < |a|)
          | none => false)
  else none

theorem accelCode_eq_claimed (s : List ℚ) (h2 : 2 ≤ s.length) :
    accelCode (pyChanges s) = accelerationClaimed s := by
  have hcl : (pyChanges s).length = s.length - 1 := by
    rw [pyChanges, List.length_zipWith, List.length_tail]; omega
  by_cases h4 : 4 ≤ s.length
  · rw [accelCode, if_pos (by omega), accelerationClaimed, if_pos h4]
    have hdrop : ((pyChanges s).drop ((pyChanges s).length - 2)).length ≠ 0 := by
      rw [List.length_drop]; omega
    have htake : ((pyChanges s).take ((pyChanges s).length - 2)).length ≠ 0 := by
      rw [List.length_take]; omega
    rw [npMean_eq_some _ hdrop, npMean_eq_some _ htake]
    rfl
  · by_cases h3 : s.length = 3
    · rw [accelCode, if_pos (by omega), accelerationClaimed, if_neg h4,
        if_pos h3]
      have htake : ((pyChanges s).take ((pyChanges s).length - 2)).length = 0 := by
        rw [List.length_take]; omega
      rw [npMean_eq_none _ htake]
      cases npMean ((pyChanges s).drop ((pyChanges s).length - 2)) <;> rfl
    · have hl2 : s.length = 2 := by omega
      rw [accelCode, if_neg (by omega), accelerationClaimed, if_neg h4,
        if_neg h3]

/-! ## Claim C5 -/

/-- Claim C5 (amended): `calculate_velocity`'s `acceleration` equals the
mean of the last two differences minus the mean of the remaining
differences only for series of at least 4 points; for exactly 3 points the
remaining-differences slice is empty, `np.mean` of it is NaN, and the
acceleration is NaN rather than the claimed number; for fewer than 2
differences it is the explicit `0`.  `is_accelerating` exists for series of
at least 2 points and is true iff the acceleration is a number with
absolute value above `0.005` (false for NaN); the insufficient-data result
carries no `is_accelerating` key. -/
theorem calculate_velocity_acceleration_C5 (s : List ℚ) :
    (calculate_velocity s).acceleration = accelerationClaimed s ∧
    (calculate_velocity s).is_accelerating = isAcceleratingClaimed s := by
  by_cases h2 : s.length < 2
  · constructor
    · rw [calculate_velocity, if_pos h2, accelerationClaimed,
        if_neg (by omega), if_neg (by omega)]
    · rw [calculate_velocity, if_pos h2, isAcceleratingClaimed,
        if_neg (by omega)]
  · have h2' : 2 ≤ s.length := by omega
    have hacc := accelCode_eq_claimed s h2'
    constructor
    · rw [calculate_velocity, if_neg h2]
      exact hacc
    · rw [calculate_velocity, if_neg h2]
      show some (nanAbsGt (accelCode (pyChanges s)) (5/1000))
        = isAcceleratingClaimed s
      rw [hacc, isAcceleratingClaimed, if_pos h2']
      cases accelerationClaimed s <;> rfl

/-- Claim C5 counterexample: at the 3-point series `[0, 0, 0]` the code's
acceleration is NaN (`none`), not the claimed difference of means (even
reading the undefined mean of the empty remaining-differences slice as
`0`). -/
theorem calculate_velocity_counterexample_C5 :
    (calculate_velocity [(0 : ℚ), 0, 0]).acceleration = none ∧
    (calculate_velocity [(0 : ℚ), 0, 0]).acceleration ≠
      some (specMean ((pyChanges [(0 : ℚ), 0, 0]).drop
              ((pyChanges [(0 : ℚ), 0, 0]).length - 2))
            - specMean ((pyChanges [(0 : ℚ), 0, 0]).take
              ((pyChanges [(0 : ℚ), 0, 0]).length - 2))) := by
  decide

/-! ## `confidence_intervals.py`: ConfidenceCalculator.calculate_proportion_confidence

The Wilson interval involves a square root, so this part of the embedding
lives in `ℝ`. -/

/-- `confidence_intervals.ConfidenceMetrics`. -/
structure ConfidenceMetrics where
  value : ℝ
  lower_bound : ℝ
  upper_bound : ℝ
  confidence_level : ℝ
  sample_size : Nat
  standard_error : ℝ
  is_significant : Bool
  margin_of_error : ℝ

/-- `confidence_intervals.ConfidenceCalculator`: `z_score` is set at
construction to `scipy.stats.norm.ppf((1 + confidence_level)/2)` (an
external library call, kept abstract as a stored field; it is nonnegative
for every confidence level of at least 0). -/
structure ConfidenceCalculator where
  confidence_level : ℝ
  z_score : ℝ

/-- `ConfidenceCalculator.calculate_proportion_confidence`: Wilson score
interval for a proportion, all-zero metrics at `total = 0`. -/
noncomputable def calculate_proportion_confidence (c : ConfidenceCalculator)
    (successes total : Nat) : ConfidenceMetrics :=
  if total = 0 then
    { value := 0, lower_bound := 0, upper_bound := 0,
      confidence_level := c.confidence_level, sample_size := 0,
      standard_error := 0, is_significant := false, margin_of_error := 0 }
  else
    let proportion : ℝ := (successes : ℝ) / (total : ℝ)
    let z := c.z_score
    let denominator := 1 + z ^ 2 / (total : ℝ)
    let center := (proportion + z ^ 2 / (2 * (total : ℝ))) / denominator
    let margin := z * Real.sqrt ((proportion * (1 - proportion)
        + z ^ 2 / (4 * (total : ℝ))) / (total : ℝ)) / denominator
    let lower := max 0 (center - margin)
    let upper := min 1 (center + margin)
    let se := if 1 < total then
        Real.sqrt (proportion * (1 - proportion) / (total : ℝ)) else 0
    { value := proportion, lower_bound := lower, upper_bound := upper,
      confidence_level := c.confidence_level, sample_size := total,
      standard_error := se, is_significant := decide (30 ≤ total),
      margin_of_error := margin }

/-- Core Wilson inequality: the distance from the interval center to the
raw proportion is at most the margin's numerator. -/
theorem wilson_abs_le (z n p : ℝ) (hz : 0 ≤ z) (hn : 0 < n)
    (hp0 : 0 ≤ p) (hp1 : p ≤ 1) :
    |z ^ 2 / n * (1 / 2 - p)| ≤
      z * Real.sqrt ((p * (1 - p) + z ^ 2 / (4 * n)) / n) := by
  have hpq : 0 ≤ p * (1 - p) := mul_nonneg hp0 (by linarith)
  have hz4 : 0 ≤ z ^ 2 / (4 * n) := by positivity
  have hR : 0 ≤ (p * (1 - p) + z ^ 2 / (4 * n)) / n :=
    div_nonneg (by linarith) hn.le
  have hun : (0 : ℝ) < n⁻¹ := inv_pos.mpr hn
  have hsq : (z ^ 2 / n * (1 / 2 - p)) ^ 2
      ≤ z ^ 2 * ((p * (1 - p) + z ^ 2 / (4 * n)) / n) := by
    have e1 : z ^ 2 / n = z ^ 2 * n⁻¹ := div_eq_mul_inv _ _
    have e2 : z ^ 2 / (4 * n) = z ^ 2 * n⁻¹ / 4 := by
      rw [div_eq_mul_inv, mul_inv]; ring
    have e3 : (p * (1 - p) + z ^ 2 * n⁻¹ / 4) / n
        = (p * (1 - p) + z ^ 2 * n⁻¹ / 4) * n⁻¹ := div_eq_mul_inv _ _
    rw [e1, e2, e3]
    nlinarith [mul_nonneg (mul_nonneg (sq_nonneg z) hun.le) hpq,
      mul_nonneg (mul_nonneg (mul_nonneg (sq_nonneg z) (sq_nonneg z))
        (mul_nonneg hun.le hun.le)) hpq]
  calc |z ^ 2 / n * (1 / 2 - p)|
      = Real.sqrt ((z ^ 2 / n * (1 / 2 - p)) ^ 2) :=
        (Real.sqrt_sq_eq_abs _).symm
    _ ≤ Real.sqrt (z ^ 2 * ((p * (1 - p) + z ^ 2 / (4 * n)) / n)) :=
        Real.sqrt_le_sqrt hsq
    _ = z * Real.sqrt ((p * (1 - p) + z ^ 2 / (4 * n)) / n) := by
        rw [Real.sqrt_mul (sq_nonneg z), Real.sqrt_sq hz]

/-- Ordering of the clamped Wilson bounds around the raw proportion. -/
theorem wilson_bounds (z n p : ℝ) (hz : 0 ≤ z) (hn : 0 < n)
    (hp0 : 0 ≤ p) (hp1 : p ≤ 1) :
    0 ≤ max 0 ((p + z ^ 2 / (2 * n)) / (1 + z ^ 2 / n)
        - z * Real.sqrt ((p * (1 - p) + z ^ 2 / (4 * n)) / n)
          / (1 + z ^ 2 / n)) ∧
    max 0 ((p + z ^ 2 / (2 * n)) / (1 + z ^ 2 / n)
        - z * Real.sqrt ((p * (1 - p) + z ^ 2 / (4 * n)) / n)
          / (1 + z ^ 2 / n)) ≤ p ∧
    p ≤ min 1 ((p + z ^ 2 / (2 * n)) / (1 + z ^ 2 / n)
        + z * Real.sqrt ((p * (1 - p) + z ^ 2 / (4 * n)) / n)
          / (1 + z ^ 2 / n)) ∧
    min 1 ((p + z ^ 2 / (2 * n)) / (1 + z ^ 2 / n)
        + z * Real.sqrt ((p * (1 - p) + z ^ 2 / (4 * n)) / n)
          / (1 + z ^ 2 / n)) ≤ 1 := by
  have hD : (0 : ℝ) < 1 + z ^ 2 / n := by positivity
  have key := wilson_abs_le z n p hz hn hp0 hp1
  have hcenter : (p + z ^ 2 / (2 * n)) / (1 + z ^ 2 / n) - p
      = (z ^ 2 / n * (1 / 2 - p)) / (1 + z ^ 2 / n) := by
    field_simp
    ring
  have hup : (z ^ 2 / n * (1 / 2 - p)) / (1 + z ^ 2 / n)
      ≤ z * Real.sqrt ((p * (1 - p) + z ^ 2 / (4 * n)) / n)
        / (1 + z ^ 2 / n) := by
    apply div_le_div_of_nonneg_right ?_ hD.le
    exact le_trans (le_abs_self _) key
  have hlo : -(z * Real.sqrt ((p * (1 - p) + z ^ 2 / (4 * n)) / n)
        / (1 + z ^ 2 / n))
      ≤ (z ^ 2 / n * (1 / 2 - p)) / (1 + z ^ 2 / n) := by
    rw [← neg_div]
    apply div_le_div_of_nonneg_right ?_ hD.le
    have h1 : -|z ^ 2 / n * (1 / 2 - p)| ≤ z ^ 2 / n * (1 / 2 - p) :=
      neg_abs_le _
    linarith
  refine ⟨le_max_left 0 _, max_le hp0 ?_, le_min hp1 ?_, min_le_left 1 _⟩
  · linarith
  · linarith

/-! ## Claim C2 -/

/-- Claim C2: for `0 ≤ successes ≤ total` (and the nonnegative z-score the
constructor produces), the metrics satisfy
`0 ≤ lower_bound ≤ value ≤ upper_bound ≤ 1` with
`value = successes/total`; and at `total = 0` every numeric field is zero,
`sample_size` is 0 and `is_significant` is false — a defined result, not an
error. -/
theorem calculate_proportion_confidence_C2 (c : ConfidenceCalculator)
    (successes total : Nat) (hz : 0 ≤ c.z_score) (hst : successes ≤ total) :
    (0 ≤ (calculate_proportion_confidence c successes total).lower_bound ∧
     (calculate_proportion_confidence c successes total).lower_bound
       ≤ (calculate_proportion_confidence c successes total).value ∧
     (calculate_proportion_confidence c successes total).value
       ≤ (calculate_proportion_confidence c successes total).upper_bound ∧
     (calculate_proportion_confidence c successes total).upper_bound ≤ 1) ∧
    (total ≠ 0 →
      (calculate_proportion_confidence c successes total).value
        = (successes : ℝ) / (total : ℝ)) ∧
    (total = 0 →
      (calculate_proportion_confidence c successes total).value = 0 ∧
      (calculate_proportion_confidence c successes total).lower_bound = 0 ∧
      (calculate_proportion_confidence c successes total).upper_bound = 0 ∧
      (calculate_proportion_confidence c successes total).standard_error = 0 ∧
      (calculate_proportion_confidence c successes total).margin_of_error = 0 ∧
      (calculate_proportion_confidence c successes total).sample_size = 0 ∧
      (calculate_proportion_confidence c successes total).is_significant
        = false) := by
  by_cases h0 : total = 0
  · subst h0
    rw [calculate_proportion_confidence, if_pos rfl]
    exact ⟨⟨le_refl 0, le_refl 0, le_refl 0, zero_le_one⟩,
      fun h => absurd rfl h,
      fun _ => ⟨rfl, rfl, rfl, rfl, rfl, rfl, rfl⟩⟩
  · rw [calculate_proportion_confidence, if_neg h0]
    have hn : (0 : ℝ) < (total : ℝ) := by
      exact_mod_cast Nat.pos_of_ne_zero h0
    have hp0 : (0 : ℝ) ≤ (successes : ℝ) / (total : ℝ) := by positivity
    have hp1 : (successes : ℝ) / (total : ℝ) ≤ 1 := by
      rw [div_le_one hn]; exact_mod_cast hst
    obtain ⟨b1, b2, b3, b4⟩ :=
      wilson_bounds c.z_score (total : ℝ) ((successes : ℝ) / (total : ℝ))
        hz hn hp0 hp1
    exact ⟨⟨b1, b2, b3, b4⟩, fun _ => rfl, fun h => absurd h h0⟩

/-- Witness for C2 at `z = 2`, one success out of two trials. -/
theorem calculate_proportion_confidence_C2_witness :
    (0 ≤ (calculate_proportion_confidence
        { confidence_level := 19/20, z_score := 2 } 1 2).lower_bound ∧
     (calculate_proportion_confidence
        { confidence_level := 19/20, z_score := 2 } 1 2).lower_bound
       ≤ (calculate_proportion_confidence
        { confidence_level := 19/20, z_score := 2 } 1 2).value ∧
     (calculate_proportion_confidence
        { confidence_level := 19/20, z_score := 2 } 1 2).value
       ≤ (calculate_proportion_confidence
        { confidence_level := 19/20, z_score := 2 } 1 2).upper_bound ∧
     (calculate_proportion_confidence
        { confidence_level := 19/20, z_score := 2 } 1 2).upper_bound ≤ 1) ∧
    ((2 : Nat) ≠ 0 →
      (calculate_proportion_confidence
        { confidence_level := 19/20, z_score := 2 } 1 2).value
        = ((1 : Nat) : ℝ) / ((2 : Nat) : ℝ)) ∧
    ((2 : Nat) = 0 →
      (calculate_proportion_confidence
        { confidence_level := 19/20, z_score := 2 } 1 2).value = 0 ∧
      (calculate_proportion_confidence
        { confidence_level := 19/20, z_score := 2 } 1 2).lower_bound = 0 ∧
      (calculate_proportion_confidence
        { confidence_level := 19/20, z_score := 2 } 1 2).upper_bound = 0 ∧
      (calculate_proportion_confidence
        { confidence_level := 19/20, z_score := 2 } 1 2).standard_error = 0 ∧
      (calculate_proportion_confidence
        { confidence_level := 19/20, z_score := 2 } 1 2).margin_of_error = 0 ∧
      (calculate_proportion_confidence
        { confidence_level := 19/20, z_score := 2 } 1 2).sample_size = 0 ∧
      (calculate_proportion_confidence
        { confidence_level := 19/20, z_score := 2 } 1 2).is_significant
        = false) :=
  calculate_proportion_confidence_C2
    { confidence_level := 19/20, z_score := 2 } 1 2 zero_le_two one_le_two

/-! ## `theme_analyzer.py`: NarrativeAnalysis and generate_insights_text -/

/-- `theme_analyzer.NarrativeAnalysis`.  The source field `attribute` is a
Lean keyword and is modelled as `attributeName`. -/
structure NarrativeAnalysis where
  attributeName : String
  brand_ownership : List (String × ℚ)
  leader : String
  leader_score : ℚ
  gap_analysis : List (String × ℚ)
  example_quotes : List (String × List String)
  deriving DecidableEq, Repr

/-- Python's `:.0%` format: percentage rounded to a whole number.  (Python
rounds ties to even on the underlying float; no claim depends on the tie
direction, so the standard `round` is used.) -/
def fmtPct (q : ℚ) : String := toString (round (q * 100)) ++ "%"

/-- The you-own-this-narrative message of `generate_insights_text`. -/
def ownershipMsg (nar : NarrativeAnalysis) (your_score : ℚ) : String :=
  "✅ **" ++ nar.attributeName ++ "**: You own this narrative ("
    ++ fmtPct your_score ++ " association rate)"

/-- The leader-dominates message of `generate_insights_text`. -/
def dominatesMsg (nar : NarrativeAnalysis) (your_score gap : ℚ) : String :=
  "⚠️ **" ++ nar.attributeName ++ "**: " ++ nar.leader ++ " dominates ("
    ++ fmtPct nar.leader_score ++ " vs your " ++ fmtPct your_score
    ++ "). Gap: " ++ fmtPct gap

/-- The contested-opportunity message of `generate_insights_text`. -/
def opportunityMsg (nar : NarrativeAnalysis) (your_score : ℚ) : String :=
  "🎯 **" ++ nar.attributeName
    ++ "**: Opportunity to own this narrative. Current leader "
    ++ nar.leader ++ " at " ++ fmtPct nar.leader_score ++ ", you at "
    ++ fmtPct your_score

/-- One iteration of the loop in `generate_insights_text`: skip narratives
the brand does not participate in, then the unguarded
`narrative.gap_analysis[your_brand]` access (a `KeyError` when absent,
modelled as `Except.error`), then the if/elif cascade. -/
def insightStep (your_brand : String) (nar : NarrativeAnalysis) :
    Except String (Option String) :=
  match nar.brand_ownership.lookup your_brand with
  | none => .ok none
  | some your_score =>
    match nar.gap_analysis.lookup your_brand with
    | none => .error ("KeyError: " ++ your_brand)
    | some gap =>
      if nar.leader == your_brand then .ok (some (ownershipMsg nar your_score))
      else if 15/100 < gap then .ok (some (dominatesMsg nar your_score gap))
      else if 5/100 < gap ∧ nar.leader_score < 50/100 then
        .ok (some (opportunityMsg nar your_score))
      else .ok none

/-- The accumulation loop of `generate_insights_text`, with Python's
exception propagation made explicit. -/
def insightsLoop (your_brand : String) :
    List NarrativeAnalysis → Except String (List String)
  | [] => .ok []
  | nar :: rest =>
    match insightStep your_brand nar with
    | .error e => .error e
    | .ok o =>
      match insightsLoop your_brand rest with
      | .error e => .error e
      | .ok t =>
        match o with
        | some s => .ok (s :: t)
        | none => .ok t

/-- `ThemeAnalyzer.generate_insights_text`: the collected insights,
truncated to the first five (`insights[:5]`). -/
def generate_insights_text (narratives : List NarrativeAnalysis)
    (your_brand : String) : Except String (List String) :=
  (insightsLoop your_brand narratives).map (fun l => l.take 5)

/-- The claim's per-narrative classification, following the spec's words:
no insight when the target brand does not participate; otherwise exactly
one of three mutually exclusive categories in priority order — (1) the
target brand is the leader, (2) its gap exceeds 0.15, (3) its gap exceeds
0.05 and the leader's score is below 0.50 — else no insight. -/
def specInsight (your_brand : String) (nar : NarrativeAnalysis) :
    Option String :=
  match nar.brand_ownership.lookup your_brand with
  | none => none
  | some your_score =>
    if nar.leader == your_brand then some (ownershipMsg nar your_score)
    else if 15/100 < (nar.gap_analysis.lookup your_brand).getD 0 then
      some (dominatesMsg nar your_score
        ((nar.gap_analysis.lookup your_brand).getD 0))
    else if 5/100 < (nar.gap_analysis.lookup your_brand).getD 0
        ∧ nar.leader_score < 50/100 then
      some (opportunityMsg nar your_score)
    else none

theorem insightsLoop_eq (your_brand : String)
    (narratives : List NarrativeAnalysis)
    (hwf : ∀ nar ∈ narratives,
      (nar.brand_ownership.lookup your_brand).isSome = true →
      (nar.gap_analysis.lookup your_brand).isSome = true) :
    insightsLoop your_brand narratives
      = .ok (narratives.filterMap (specInsight your_brand)) := by
  induction narratives with
  | nil => rfl
  | cons nar rest ih =>
    have hwf' : ∀ x ∈ rest,
        (x.brand_ownership.lookup your_brand).isSome = true →
        (x.gap_analysis.lookup your_brand).isSome = true :=
      fun x hx => hwf x (List.mem_cons_of_mem nar hx)
    have hstep : insightStep your_brand nar
        = .ok (specInsight your_brand nar) := by
      cases hbo : nar.brand_ownership.lookup your_brand with
      | none => simp [insightStep, specInsight, hbo]
      | some ys =>
        have hgap : (nar.gap_analysis.lookup your_brand).isSome = true :=
          hwf nar (List.mem_cons_self nar rest) (by rw [hbo]; rfl)
        obtain ⟨g, hg⟩ := Option.isSome_iff_exists.mp hgap
        simp only [insightStep, specInsight, hbo, hg, Option.getD_some]
        split_ifs <;> rfl
    cases hsi : specInsight your_brand nar with
    | none =>
      rw [insightsLoop, hstep, hsi, ih hwf', List.filterMap_cons_none hsi]
    | some s =>
      rw [insightsLoop, hstep, hsi, ih hwf', List.filterMap_cons_some hsi]

/-! ## Claim C7 -/

/-- Claim C7: for every narrative sequence whose `gap_analysis` is keyed at
least as widely as `brand_ownership` for the target brand,
`generate_insights_text` succeeds with at most 5 insights, equal to the
order-preserving truncation of the per-narrative classification that emits
nothing for non-participating narratives and otherwise exactly one of the
three mutually exclusive priority-ordered categories. -/
theorem generate_insights_text_C7 (narratives : List NarrativeAnalysis)
    (your_brand : String)
    (hwf : ∀ nar ∈ narratives,
      (nar.brand_ownership.lookup your_brand).isSome = true →
      (nar.gap_analysis.lookup your_brand).isSome = true) :
    ∃ l, generate_insights_text narratives your_brand = .ok l ∧
      l.length ≤ 5 ∧
      l = (narratives.filterMap (specInsight your_brand)).take 5 ∧
      ∀ nar ∈ narratives, nar.brand_ownership.lookup your_brand = none →
        specInsight your_brand nar = none := by
  refine ⟨(narratives.filterMap (specInsight your_brand)).take 5, ?_, ?_, rfl, ?_⟩
  · rw [generate_insights_text, insightsLoop_eq your_brand narratives hwf]
    rfl
  · exact List.length_take_le 5 _
  · intro nar _ hnone
    simp [specInsight, hnone]

/-- Witness for C7: one narrative led by the target brand. -/
theorem generate_insights_text_C7_witness :
    ∃ l, generate_insights_text
        [{ attributeName := "Network Excellence",
           brand_ownership := [("A", 1/2)], leader := "A",
           leader_score := 1/2, gap_analysis := [("A", 0)],
           example_quotes := [] }] "A" = .ok l ∧
      l.length ≤ 5 ∧
      l = (([{ attributeName := "Network Excellence",
               brand_ownership := [("A", 1/2)], leader := "A",
               leader_score := 1/2, gap_analysis := [("A", 0)],
               example_quotes := [] }] :
             List NarrativeAnalysis).filterMap (specInsight "A")).take 5 ∧
      ∀ nar ∈ ([{ attributeName := "Network Excellence",
                  brand_ownership := [("A", 1/2)], leader := "A",
                  leader_score := 1/2, gap_analysis := [("A", 0)],
                  example_quotes := [] }] : List NarrativeAnalysis),
        nar.brand_ownership.lookup "A" = none →
        specInsight "A" nar = none :=
  generate_insights_text_C7 _ "A" (by decide)

/-! ## `theme_analyzer.py`: ThemeAnalyzer.extract_themes -/

/-- `ThemeAnalyzer.ATTRIBUTES`. -/
def ATTRIBUTES : List String :=
  ["reliability", "network_quality", "coverage", "5g",
   "price", "value", "affordable", "cheap",
   "customer_service", "support", "service",
   "innovation", "technology", "modern",
   "speed", "fast", "performance",
   "international", "roaming", "global",
   "business", "enterprise", "corporate",
   "flexibility", "contract", "prepaid",
   "data", "unlimited", "volume",
   "premium", "quality", "best"]

/-- Python regex `\w` (ASCII part): letters, digits and underscore. -/
def isWordChar (c : Char) : Bool := c.isAlphanum || c == '_'

/-- Scan for a match of `\b attr \w*\b`, carrying whether the previous
character was a word character. -/
def attrSearchAux (attr : List Char) : List Char → Bool → Bool
  | [], prevIsWord => !prevIsWord && attr.isPrefixOf ([] : List Char)
  | c :: t, prevIsWord =>
    ((!prevIsWord) && attr.isPrefixOf (c :: t))
      || attrSearchAux attr t (isWordChar c)

/-- `_compile_patterns`' regex `\b + re.escape(attr) + \w*\b` (IGNORECASE),
searched in an already-lowercased context: every attribute begins with a
word character, so the pattern matches iff `attr` occurs at a position that
is the start of the string or preceded by a non-word character; the
trailing `\w*\b` always succeeds. -/
def attrPatternSearch (attr : String) (s : List Char) : Bool :=
  attrSearchAux attr.data s false

/-- Python `text.find(sub, start)`: `-1` (`none`) when `start` exceeds the
length. -/
def findFrom (sub s : List Char) (start : Nat) : Option Nat :=
  if s.length < start then none
  else (charFind sub (s.drop start)).map (· + start)

/-- The repeated-find loop of `_extract_brand_contexts`: collect match
positions, advancing one character past each match start (so overlapping
matches are caught).  The start index grows by at least one per iteration
and the loop stops once it passes the length, so `length + 2` fuel
suffices. -/
def findAllFrom (sub s : List Char) : Nat → Nat → List Nat
  | 0, _ => []
  | fuel + 1, start =>
    match findFrom sub s start with
    | none => []
    | some pos => pos :: findAllFrom sub s fuel (pos + 1)

/-- `ThemeAnalyzer._extract_brand_contexts` with the default
`window = 150`: the slice `text[max(0, pos-150) : min(len(text),
pos+len(brand)+150)]` around every occurrence (`Nat` subtraction is the
`max(0, ...)`). -/
def extractBrandContexts (text brand : String) : List (List Char) :=
  let text_lower := lowerStr text.data
  let brand_lower := lowerStr brand.data
  (findAllFrom brand_lower text_lower (text_lower.length + 2) 0).map
    fun pos =>
      (text.data.drop (pos - 150)).take
        (min text.data.length (pos + brand.data.length + 150) - (pos - 150))

/-- The positive keyword list of `_estimate_sentiment`. -/
def positive_words : List String :=
  ["best", "excellent", "great", "good", "recommended",
   "strong", "leading", "top", "superior", "outstanding"]

/-- The negative keyword list of `_estimate_sentiment`. -/
def negative_words : List String :=
  ["poor", "bad", "worst", "avoid", "limited",
   "weak", "lacking", "disappointing", "issues"]

/-- `ThemeAnalyzer._estimate_sentiment`. -/
def estimateSentiment (quotes : List String) : String :=
  if quotes.isEmpty then "neutral"
  else
    let text := lowerStr (String.intercalate " " quotes).data
    let positive_count :=
      (positive_words.filter (fun w => charIn w.data text)).length
    let negative_count :=
      (negative_words.filter (fun w => charIn w.data text)).length
    if negative_count * 2 < positive_count then "positive"
    else if positive_count * 2 < negative_count then "negative"
    else "neutral"

/-- `theme_analyzer.ThemeInsight`. -/
structure ThemeInsight where
  theme : String
  brand : String
  frequency : ℚ
  example_quotes : List String
  sentiment : String
  deriving DecidableEq, Repr

/-- One `brand_themes[brand][attr]` update of `extract_themes`: bump the
count and retain the context (truncated to 200 characters) while fewer
than 5 quotes are stored.  The nested `defaultdict` is modelled as an
association list keyed by (brand, attribute) in insertion order. -/
def themeBump (key : String × String) (context : List Char) :
    List ((String × String) × (Nat × List String)) →
    List ((String × String) × (Nat × List String))
  | [] => [(key, (1, [String.mk (context.take 200)]))]
  | (k, (cnt, qs)) :: rest =>
    if k == key then
      (k, (cnt + 1,
        if qs.length < 5 then qs ++ [String.mk (context.take 200)]
        else qs)) :: rest
    else (k, (cnt, qs)) :: themeBump key context rest

/-- The attribute loop of `extract_themes` over one context window. -/
def processContext (brand : String)
    (st : List ((String × String) × (Nat × List String)))
    (context : List Char) :
    List ((String × String) × (Nat × List String)) :=
  ATTRIBUTES.foldl
    (fun st attr =>
      if attrPatternSearch attr (lowerStr context) then
        themeBump (brand, attr) context st
      else st) st

/-- The per-result brand loop of `extract_themes`:
`result.mentions[brand]` is an unguarded dict access, a `KeyError`
(modelled as `Except.error`) when the key is absent. -/
def processResult (brands : List String)
    (st : List ((String × String) × (Nat × List String)))
    (r : QueryResult) :
    Except String (List ((String × String) × (Nat × List String))) :=
  brands.foldlM
    (fun st brand =>
      match r.mentions.lookup brand with
      | none => .error ("KeyError: " ++ brand)
      | some m =>
        if m.mentioned then
          .ok ((extractBrandContexts r.response brand).foldl
            (processContext brand) st)
        else .ok st) st

/-- The `total_mentions` comprehension of `extract_themes`, with the same
unguarded `r.mentions[brand]` access. -/
def totalMentions (results : List QueryResult) (brand : String) :
    Except String Nat :=
  results.foldlM
    (fun acc r =>
      match r.mentions.lookup brand with
      | none => .error ("KeyError: " ++ brand)
      | some m => .ok (if m.mentioned then acc + 1 else acc)) 0

/-- `ThemeAnalyzer.extract_themes`: accumulate per-(brand, attribute)
counts and quotes over all results, then build the per-brand
`ThemeInsight` mappings (skipping brands never mentioned and attributes of
zero frequency). -/
def extract_themes (brands : List String) (results : List QueryResult) :
    Except String (List (String × List (String × ThemeInsight))) := do
  let brand_themes ← results.foldlM (fun st r => processResult brands st r) []
  let total_mentions ← brands.mapM (fun b => do
    let t ← totalMentions results b
    pure (b, t))
  pure (brands.map fun brand =>
    let total := (total_mentions.lookup brand).getD 0
    if total = 0 then (brand, [])
    else
      (brand,
        (brand_themes.filter (fun kv => kv.1.1 == brand)).filterMap
          fun kv =>
            let freq : ℚ := (kv.2.1 : ℚ) / (total : ℚ)
            if 0 < freq then
              some (kv.1.2,
                { theme := kv.1.2, brand := brand, frequency := freq,
                  example_quotes := kv.2.2.take 3,
                  sentiment := estimateSentiment kv.2.2 })
            else none))

theorem somForBrand_mention_rate (results : List QueryResult)
    (brand : String) :
    (somForBrand results brand).mention_rate =
      ((results.filter (fun r => brandMentioned brand r)).length : ℚ)
        / (results.length : ℚ) := rfl

/-! ## Claim C10 -/

/-- Claim C10: `extract_themes` reads `result.mentions[brand]` with no
membership guard, so a result whose `mentions` mapping lacks a tracked
brand key fails with a `KeyError`; `calculate_som` on the very same input
succeeds, treating the brand as unmentioned. -/
theorem extract_themes_keyerror_C10 :
    extract_themes ["Acme"]
      [{ timestamp := "", category := "", query := "", run := 0,
         model := "", provider := "", response := "", mentions := [],
         mention_order := [], total_mentioned := 0 }]
      = .error "KeyError: Acme" ∧
    (calculate_som ["Acme"]
      [{ timestamp := "", category := "", query := "", run := 0,
         model := "", provider := "", response := "", mentions := [],
         mention_order := [], total_mentioned := 0 }]).lookup "Acme"
      = some (somForBrand
          [{ timestamp := "", category := "", query := "", run := 0,
             model := "", provider := "", response := "", mentions := [],
             mention_order := [], total_mentioned := 0 }] "Acme") ∧
    (somForBrand
      [{ timestamp := "", category := "", query := "", run := 0,
         model := "", provider := "", response := "", mentions := [],
         mention_order := [], total_mentioned := 0 }] "Acme").mention_rate
      = 0 ∧
    brandMentioned "Acme"
      { timestamp := "", category := "", query := "", run := 0,
        model := "", provider := "", response := "", mentions := [],
        mention_order := [], total_mentioned := 0 } = false := by
  refine ⟨rfl, ?_, ?_, rfl⟩
  · rw [calculate_som, if_neg (by simp)]
    rfl
  · have hf : (List.filter (fun r => brandMentioned "Acme" r)
        ([{ timestamp := "", category := "", query := "", run := 0,
            model := "", provider := "", response := "", mentions := [],
            mention_order := [], total_mentioned := 0 }] :
          List QueryResult)).length = 0 := rfl
    rw [somForBrand_mention_rate, hf]
    simp

/-! ## `storage.py` / `models.py`: the serialization round-trip

The JSON document written by `save_results` and read back by
`load_results`; the file system is out of scope (the spec treats
persistence as an external store returning the saved document unchanged),
so the round-trip is modelled on the JSON value itself.  All integers in
this wire format are nonnegative (counts, indices), matching the `Nat`
fields of the model. -/

/-- A JSON value as produced by `json.dump` / consumed by `json.load`. -/
inductive JsonVal where
  | jnull : JsonVal
  | jbool : Bool → JsonVal
  | jnum : Nat → JsonVal
  | jstr : String → JsonVal
  | jarr : List JsonVal → JsonVal
  | jobj : List (String × JsonVal) → JsonVal

/-- `BrandMention.to_dict` (via `dataclasses.asdict`): `None` serializes as
JSON `null`. -/
def BrandMention.to_dict (m : BrandMention) : JsonVal :=
  .jobj [("mentioned", .jbool m.mentioned),
         ("first_position",
           match m.first_position with
           | none => .jnull
           | some i => .jnum i),
         ("count", .jnum m.count)]

/-- `QueryResult.to_dict`. -/
def QueryResult.to_dict (r : QueryResult) : JsonVal :=
  .jobj [("timestamp", .jstr r.timestamp),
         ("category", .jstr r.category),
         ("query", .jstr r.query),
         ("run", .jnum r.run),
         ("model", .jstr r.model),
         ("provider", .jstr r.provider),
         ("response", .jstr r.response),
         ("mentions", .jobj (r.mentions.map fun kv => (kv.1, kv.2.to_dict))),
         ("mention_order", .jarr (r.mention_order.map fun b => .jstr b)),
         ("total_mentioned", .jnum r.total_mentioned)]

/-- `StorageManager.save_results`: the JSON document
`[r.to_dict() for r in results]` written to the results file. -/
def save_results (results : List QueryResult) : JsonVal :=
  .jarr (results.map QueryResult.to_dict)

/-- Reading a JSON string field (`item['key']` expected to be text). -/
def asStr : JsonVal → Option String
  | .jstr s => some s
  | _ => none

/-- Reading a JSON integer field. -/
def asNum : JsonVal → Option Nat
  | .jnum n => some n
  | _ => none

/-- Reading a JSON object field. -/
def asObj : JsonVal → Option (List (String × JsonVal))
  | .jobj l => some l
  | _ => none

/-- The element-wise reconstruction loop of `load_results` over a list:
stops at the first failing element. -/
def mapOption {A B : Type} (f : A → Option B) : List A → Option (List B)
  | [] => some []
  | a :: t => do
    let b ← f a
    let bs ← mapOption f t
    pure (b :: bs)

/-- `BrandMention(**mention_data)` in `load_results`: keyword construction
from exactly the three serialized fields, with `null` restored as `None`. -/
def parseBrandMention : JsonVal → Option BrandMention
  | .jobj [("mentioned", .jbool b), ("first_position", fp), ("count", .jnum c)] =>
    match fp with
    | .jnull => some { mentioned := b, first_position := none, count := c }
    | .jnum i => some { mentioned := b, first_position := some i, count := c }
    | _ => none
  | _ => none

/-- The per-item reconstruction of `load_results`: `item['...']` key
lookups, the `mentions` dict rebuilt entry-wise through
`BrandMention(**...)`. -/
def parseResult (j : JsonVal) : Option QueryResult :=
  match j with
  | .jobj item => do
    let ts ← (item.lookup "timestamp").bind asStr
    let cat ← (item.lookup "category").bind asStr
    let q ← (item.lookup "query").bind asStr
    let rn ← (item.lookup "run").bind asNum
    let mdl ← (item.lookup "model").bind asStr
    let prov ← (item.lookup "provider").bind asStr
    let resp ← (item.lookup "response").bind asStr
    let mobj ← (item.lookup "mentions").bind asObj
    let mentions ← mapOption
      (fun kv => (parseBrandMention kv.2).map fun m => (kv.1, m)) mobj
    let mo ← match item.lookup "mention_order" with
      | some (.jarr l) => mapOption asStr l
      | _ => none
    let tm ← (item.lookup "total_mentioned").bind asNum
    pure { timestamp := ts, category := cat, query := q, run := rn,
           model := mdl, provider := prov, response := resp,
           mentions := mentions, mention_order := mo,
           total_mentioned := tm }
  | _ => none

/-- `StorageManager.load_results`: every item of the stored document
reconstructed into a `QueryResult`. -/
def load_results (j : JsonVal) : Option (List QueryResult) :=
  match j with
  | .jarr items => mapOption parseResult items
  | _ => none

theorem parseBrandMention_to_dict (m : BrandMention) :
    parseBrandMention m.to_dict = some m := by
  obtain ⟨b, fp, c⟩ := m
  cases fp <;> rfl

theorem mentions_roundtrip (l : List (String × BrandMention)) :
    mapOption (fun kv => (parseBrandMention kv.2).map fun m => (kv.1, m))
      (l.map fun kv => (kv.1, BrandMention.to_dict kv.2))
      = some l := by
  induction l with
  | nil => rfl
  | cons kv t ih =>
    rw [List.map_cons, mapOption, parseBrandMention_to_dict]
    simp [ih]

theorem order_roundtrip (l : List String) :
    mapOption asStr (l.map fun b => JsonVal.jstr b) = some l := by
  induction l with
  | nil => rfl
  | cons b t ih =>
    rw [List.map_cons, mapOption]
    simp [asStr, ih]

theorem parseResult_to_dict (r : QueryResult) :
    parseResult r.to_dict = some r := by
  obtain ⟨ts, cat, q, rn, mdl, prov, resp, mentions, mo, tm⟩ := r
  have hred : parseResult (QueryResult.to_dict
      { timestamp := ts, category := cat, query := q, run := rn,
        model := mdl, provider := prov, response := resp,
        mentions := mentions, mention_order := mo, total_mentioned := tm })
      = (mapOption (fun kv => (parseBrandMention kv.2).map fun m => (kv.1, m))
          (mentions.map fun kv => (kv.1, BrandMention.to_dict kv.2))).bind
          fun ms =>
            (mapOption asStr (mo.map fun b => JsonVal.jstr b)).bind
              fun mos =>
                some { timestamp := ts, category := cat, query := q,
                       run := rn, model := mdl, provider := prov,
                       response := resp, mentions := ms,
                       mention_order := mos, total_mentioned := tm } := rfl
  rw [hred, mentions_roundtrip, order_roundtrip]
  rfl

/-! ## Claim C8 -/

/-- Claim C8: saving any sequence of `QueryResult` records
(`save_results`, serializing each with `QueryResult.to_dict`) and
reloading it (`load_results`) restores the sequence field-for-field,
including `first_position` stored as `null` and restored as `None` for
unmentioned brands — a lossless round-trip. -/
theorem storage_roundtrip_C8 (results : List QueryResult) :
    load_results (save_results results) = some results := by
  rw [save_results]
  show mapOption parseResult (results.map QueryResult.to_dict) = some results
  induction results with
  | nil => rfl
  | cons r t ih =>
    rw [List.map_cons, mapOption, parseResult_to_dict]
    simp [ih]
